import Mathlib

/-! Shallow embedding of the MaxLinear/Exar xr_serial USB-to-serial driver
(xr_serial.c).  The model-indexed register table, the vendor control-transfer
encoding (including the per-model channel mangling), the baud-rate engine with
its clock-mask table, the flow-mode sequencing and the modem-control handling
are translated directly from the C source.  Machine-integer truncations that
matter (the u8 register argument, the u8 gpio_mode local, u32 arithmetic) are
made explicit with mod operations.  Fallible USB transfers are modelled by
explicit result parameters or success oracles. -/

/-- The four supported chip models (enum xr_model). -/
inductive Model
  | XR2280X
  | XR21B1411
  | XR21V141X
  | XR21B142X
deriving DecidableEq

/-- Abstract register roles plus the two request codes (enum xr_hal_type). -/
inductive XrHalType
  | REG_ENABLE
  | REG_FORMAT
  | REG_FLOW_CTRL
  | REG_XON_CHAR
  | REG_XOFF_CHAR
  | REG_TX_BREAK
  | REG_RS485_DELAY
  | REG_GPIO_MODE
  | REG_GPIO_DIR
  | REG_GPIO_SET
  | REG_GPIO_CLR
  | REG_GPIO_STATUS
  | REG_GPIO_INT_MASK
  | REG_CUSTOMIZED_INT
  | REG_GPIO_PULL_UP_ENABLE
  | REG_GPIO_PULL_DOWN_ENABLE
  | REG_LOOPBACK
  | REG_LOW_LATENCY
  | REG_CUSTOM_DRIVER
  | REQ_SET
  | REQ_GET
deriving DecidableEq

/-- Sentinel marking a register that is routed through a CDC class request. -/
def VIA_CDC_REGISTER : Int := -1

/-- The static 2-D table xr_hal_table.  Entries missing from the C initializer
default to 0, exactly as in C. -/
def xr_hal_table (m : Model) (t : XrHalType) : Int :=
  match m, t with
  | Model.XR2280X, XrHalType.REG_ENABLE => 0x40
  | Model.XR2280X, XrHalType.REG_FORMAT => 0x45
  | Model.XR2280X, XrHalType.REG_FLOW_CTRL => 0x46
  | Model.XR2280X, XrHalType.REG_XON_CHAR => 0x47
  | Model.XR2280X, XrHalType.REG_XOFF_CHAR => 0x48
  | Model.XR2280X, XrHalType.REG_TX_BREAK => 0x4a
  | Model.XR2280X, XrHalType.REG_RS485_DELAY => 0x4b
  | Model.XR2280X, XrHalType.REG_GPIO_MODE => 0x4c
  | Model.XR2280X, XrHalType.REG_GPIO_DIR => 0x4d
  | Model.XR2280X, XrHalType.REG_GPIO_SET => 0x4e
  | Model.XR2280X, XrHalType.REG_GPIO_CLR => 0x4f
  | Model.XR2280X, XrHalType.REG_GPIO_STATUS => 0x50
  | Model.XR2280X, XrHalType.REG_GPIO_INT_MASK => 0x51
  | Model.XR2280X, XrHalType.REG_CUSTOMIZED_INT => 0x52
  | Model.XR2280X, XrHalType.REG_GPIO_PULL_UP_ENABLE => 0x54
  | Model.XR2280X, XrHalType.REG_GPIO_PULL_DOWN_ENABLE => 0x55
  | Model.XR2280X, XrHalType.REG_LOOPBACK => 0x56
  | Model.XR2280X, XrHalType.REG_LOW_LATENCY => 0x66
  | Model.XR2280X, XrHalType.REG_CUSTOM_DRIVER => 0x81
  | Model.XR2280X, XrHalType.REQ_SET => 5
  | Model.XR2280X, XrHalType.REQ_GET => 5
  | Model.XR21B1411, XrHalType.REG_ENABLE => 0xc00
  | Model.XR21B1411, XrHalType.REG_FORMAT => VIA_CDC_REGISTER
  | Model.XR21B1411, XrHalType.REG_FLOW_CTRL => 0xc06
  | Model.XR21B1411, XrHalType.REG_XON_CHAR => 0xc07
  | Model.XR21B1411, XrHalType.REG_XOFF_CHAR => 0xc08
  | Model.XR21B1411, XrHalType.REG_TX_BREAK => 0xc0a
  | Model.XR21B1411, XrHalType.REG_RS485_DELAY => 0xc0b
  | Model.XR21B1411, XrHalType.REG_GPIO_MODE => 0xc0c
  | Model.XR21B1411, XrHalType.REG_GPIO_DIR => 0xc0d
  | Model.XR21B1411, XrHalType.REG_GPIO_SET => 0xc0e
  | Model.XR21B1411, XrHalType.REG_GPIO_CLR => 0xc0f
  | Model.XR21B1411, XrHalType.REG_GPIO_STATUS => 0xc10
  | Model.XR21B1411, XrHalType.REG_GPIO_INT_MASK => 0xc11
  | Model.XR21B1411, XrHalType.REG_CUSTOMIZED_INT => 0xc12
  | Model.XR21B1411, XrHalType.REG_GPIO_PULL_UP_ENABLE => 0xc14
  | Model.XR21B1411, XrHalType.REG_GPIO_PULL_DOWN_ENABLE => 0xc15
  | Model.XR21B1411, XrHalType.REG_LOOPBACK => 0xc16
  | Model.XR21B1411, XrHalType.REG_LOW_LATENCY => 0xcc2
  | Model.XR21B1411, XrHalType.REG_CUSTOM_DRIVER => 0x20d
  | Model.XR21B1411, XrHalType.REQ_SET => 0
  | Model.XR21B1411, XrHalType.REQ_GET => 1
  | Model.XR21V141X, XrHalType.REG_ENABLE => 0x03
  | Model.XR21V141X, XrHalType.REG_FORMAT => 0x0b
  | Model.XR21V141X, XrHalType.REG_FLOW_CTRL => 0x0c
  | Model.XR21V141X, XrHalType.REG_XON_CHAR => 0x10
  | Model.XR21V141X, XrHalType.REG_XOFF_CHAR => 0x11
  | Model.XR21V141X, XrHalType.REG_LOOPBACK => 0x12
  | Model.XR21V141X, XrHalType.REG_TX_BREAK => 0x14
  | Model.XR21V141X, XrHalType.REG_RS485_DELAY => 0x15
  | Model.XR21V141X, XrHalType.REG_GPIO_MODE => 0x1a
  | Model.XR21V141X, XrHalType.REG_GPIO_DIR => 0x1b
  | Model.XR21V141X, XrHalType.REG_GPIO_INT_MASK => 0x1c
  | Model.XR21V141X, XrHalType.REG_GPIO_SET => 0x1d
  | Model.XR21V141X, XrHalType.REG_GPIO_CLR => 0x1e
  | Model.XR21V141X, XrHalType.REG_GPIO_STATUS => 0x1f
  | Model.XR21V141X, XrHalType.REQ_SET => 0
  | Model.XR21V141X, XrHalType.REQ_GET => 1
  | Model.XR21V141X, _ => 0
  | Model.XR21B142X, XrHalType.REG_ENABLE => 0x00
  | Model.XR21B142X, XrHalType.REG_FORMAT => VIA_CDC_REGISTER
  | Model.XR21B142X, XrHalType.REG_FLOW_CTRL => 0x06
  | Model.XR21B142X, XrHalType.REG_XON_CHAR => 0x07
  | Model.XR21B142X, XrHalType.REG_XOFF_CHAR => 0x08
  | Model.XR21B142X, XrHalType.REG_TX_BREAK => 0x0a
  | Model.XR21B142X, XrHalType.REG_RS485_DELAY => 0x0b
  | Model.XR21B142X, XrHalType.REG_GPIO_MODE => 0x0c
  | Model.XR21B142X, XrHalType.REG_GPIO_DIR => 0x0d
  | Model.XR21B142X, XrHalType.REG_GPIO_SET => 0x0e
  | Model.XR21B142X, XrHalType.REG_GPIO_CLR => 0x0f
  | Model.XR21B142X, XrHalType.REG_GPIO_STATUS => 0x10
  | Model.XR21B142X, XrHalType.REG_GPIO_INT_MASK => 0x11
  | Model.XR21B142X, XrHalType.REG_CUSTOMIZED_INT => 0x12
  | Model.XR21B142X, XrHalType.REG_GPIO_PULL_UP_ENABLE => 0x14
  | Model.XR21B142X, XrHalType.REG_GPIO_PULL_DOWN_ENABLE => 0x15
  | Model.XR21B142X, XrHalType.REG_LOOPBACK => 0x16
  | Model.XR21B142X, XrHalType.REG_LOW_LATENCY => 0x46
  | Model.XR21B142X, XrHalType.REG_CUSTOM_DRIVER => 0x60
  | Model.XR21B142X, XrHalType.REQ_SET => 0
  | Model.XR21B142X, XrHalType.REQ_GET => 0

/-- Numeric address of a table entry (the non-sentinel entries are all
non-negative, so Int.toNat loses nothing on them). -/
def regAddr (m : Model) (t : XrHalType) : Nat :=
  (xr_hal_table m t).toNat

def XR_INT_OSC_HZ : Nat := 48000000

def MIN_SPEED : Nat := 46

def MAX_SPEED : Nat := XR_INT_OSC_HZ

def CLOCK_DIVISOR_0 : Nat := 0x04

def CLOCK_DIVISOR_1 : Nat := 0x05

def CLOCK_DIVISOR_2 : Nat := 0x06

def TX_CLOCK_MASK_0 : Nat := 0x07

def TX_CLOCK_MASK_1 : Nat := 0x08

def RX_CLOCK_MASK_0 : Nat := 0x09

def RX_CLOCK_MASK_1 : Nat := 0x0a

def UART_BREAK_ON : Nat := 0xff

def UART_BREAK_OFF : Nat := 0

def UART_MODE_DTR : Nat := 0x08

def UART_MODE_RTS : Nat := 0x20

def UART_FLOW_MODE_NONE : Nat := 0x0

def UART_FLOW_MODE_HW : Nat := 0x1

def UART_FLOW_MODE_SW : Nat := 0x2

def UART_MODE_GPIO_MASK : Nat := 0x7

def UART_MODE_RTS_CTS : Nat := 0x1

def TIOCM_DTR : Nat := 0x002

def TIOCM_RTS : Nat := 0x004

def USB_CDC_REQ_SEND_BREAK : Nat := 0x23

/-- Wire image of a vendor SET control transfer (wLength is always 0). -/
structure CtrlMsgOut where
  bRequest : Nat
  wValue : Nat
  wIndex : Nat
deriving DecidableEq

/-- xr_set_reg: per-model channel mangling followed by the control transfer.
The C parameter reg has type u8, so the compound assignments that OR shifted
channel values into reg are truncated modulo 256, exactly as written here.
channel has type unsigned int, so channel - 4 wraps modulo 2 to the 32. -/
def xr_set_reg (m : Model) (channel block reg val : Nat) : CtrlMsgOut :=
  let reg1 : Nat :=
    match m with
    | Model.XR2280X => reg
    | Model.XR21B1411 => reg
    | Model.XR21V141X =>
        if channel ≠ 0 then (reg ||| (((channel - 1) <<< 8) % 2 ^ 32)) % 256 else reg
    | Model.XR21B142X =>
        (reg ||| ((((channel + (2 ^ 32 - 4)) % 2 ^ 32) <<< 1) % 2 ^ 32)) % 256
  ⟨regAddr m XrHalType.REQ_SET, val, reg1 ||| (block <<< 8)⟩

/-- xr_get_reg, abstracted over the outcome of kmalloc (allocOk) and of the
USB control transfer (transferRet is the value returned by usb_control_msg,
dmabufByte the byte it stored in the DMA buffer).  Returns the pair of the C
return value and the final contents of the caller's *val byte, whose previous
contents are the parameter val.  The channel mangling of the register address
is as in xr_set_reg and does not touch ret or *val.  Error numbers: ENOMEM is
12, EIO is 5. -/
def xr_get_reg (m : Model) (channel : Nat) (allocOk : Bool)
    (transferRet : Int) (dmabufByte val : Nat) : Int × Nat :=
  if !allocOk then (-12, val)
  else if transferRet = 1 then (0, dmabufByte)
  else (if 0 ≤ transferRet then -5 else transferRet, val)

/-- Observable action of xr_break_ctl: either a class control message
(request, wValue, wLength) or a vendor register write on the UART block. -/
inductive BreakAction
  | ctrlMsg (request wValue wLength : Nat)
  | setRegUart (reg val : Nat)
deriving DecidableEq

/-- xr_break_ctl.  The local variable state is declared without an
initializer; on models other than XR21V141X it is passed to the class control
message before ever being assigned, so its value there is whatever garbage was
on the stack, modelled by the extra parameter stateUninit. -/
def xr_break_ctl (m : Model) (break_state : Int) (stateUninit : Nat) : BreakAction :=
  if m ≠ Model.XR21V141X then
    BreakAction.ctrlMsg USB_CDC_REQ_SEND_BREAK stateUninit 0
  else
    let state : Nat := if break_state = 0 then UART_BREAK_OFF else UART_BREAK_ON
    BreakAction.setRegUart (regAddr m XrHalType.REG_TX_BREAK) state

/-- One row of the clock-mask table (struct xr_txrx_clk_mask). -/
structure XrTxRxClkMask where
  tx : Nat
  rx0 : Nat
  rx1 : Nat
deriving DecidableEq

/-- The 32-entry table xr21v141x_txrx_clk_masks. -/
def xr21v141x_txrx_clk_masks : List XrTxRxClkMask :=
  [⟨0x000, 0x000, 0x000⟩,
   ⟨0x000, 0x000, 0x000⟩,
   ⟨0x100, 0x000, 0x100⟩,
   ⟨0x020, 0x400, 0x020⟩,
   ⟨0x010, 0x100, 0x010⟩,
   ⟨0x208, 0x040, 0x208⟩,
   ⟨0x104, 0x820, 0x108⟩,
   ⟨0x844, 0x210, 0x884⟩,
   ⟨0x444, 0x110, 0x444⟩,
   ⟨0x122, 0x888, 0x224⟩,
   ⟨0x912, 0x448, 0x924⟩,
   ⟨0x492, 0x248, 0x492⟩,
   ⟨0x252, 0x928, 0x292⟩,
   ⟨0x94a, 0x4a4, 0xa52⟩,
   ⟨0x52a, 0xaa4, 0x54a⟩,
   ⟨0xaaa, 0x954, 0x4aa⟩,
   ⟨0xaaa, 0x554, 0xaaa⟩,
   ⟨0x555, 0xad4, 0x5aa⟩,
   ⟨0xb55, 0xab4, 0x55a⟩,
   ⟨0x6b5, 0x5ac, 0xb56⟩,
   ⟨0x5b5, 0xd6c, 0x6d6⟩,
   ⟨0xb6d, 0xb6a, 0xdb6⟩,
   ⟨0x76d, 0x6da, 0xbb6⟩,
   ⟨0xedd, 0xdda, 0x76e⟩,
   ⟨0xddd, 0xbba, 0xeee⟩,
   ⟨0x7bb, 0xf7a, 0xdde⟩,
   ⟨0xf7b, 0xef6, 0x7de⟩,
   ⟨0xdf7, 0xbf6, 0xf7e⟩,
   ⟨0x7f7, 0xfee, 0xefe⟩,
   ⟨0xfdf, 0xfbe, 0x7fe⟩,
   ⟨0xf7f, 0xefe, 0xffe⟩,
   ⟨0xfff, 0xffe, 0xffd⟩]

/-- The index into the clock-mask table, as computed on the (clamped) baud at
line idx = ((32 * XR_INT_OSC_HZ) / baud) & 0x1f of xr_set_baudrate. -/
def xr_baud_idx (baud : Nat) : Nat :=
  ((32 * XR_INT_OSC_HZ) / baud) &&& 0x1f

/-- The divisor computed on the (clamped) baud: divisor = XR_INT_OSC_HZ / baud. -/
def xr_baud_divisor (baud : Nat) : Nat :=
  XR_INT_OSC_HZ / baud

/-- The index computation with the u32 truncation of 32 * XR_INT_OSC_HZ made
explicit (the multiplication is performed in 32-bit unsigned arithmetic). -/
def xr_baud_idx_u32 (baud : Nat) : Nat :=
  (((32 * XR_INT_OSC_HZ) % 2 ^ 32) / baud) &&& 0x1f

/-- The seven (register, value) pairs that xr_set_baudrate issues, in program
order, for a non-zero requested speed c_ospeed: clamp, divisor, table lookup,
rx0 or rx1 according to the parity of the divisor, then DIV0 DIV1 DIV2 TX0
TX1 RX0 RX1, low byte first. -/
def xr_baud_regs (c_ospeed : Nat) : List (Nat × Nat) :=
  let baud := min (max c_ospeed MIN_SPEED) MAX_SPEED
  let divisor := XR_INT_OSC_HZ / baud
  let idx := ((32 * XR_INT_OSC_HZ) / baud) &&& 0x1f
  let tx_mask := (xr21v141x_txrx_clk_masks.getD idx ⟨0, 0, 0⟩).tx
  let rx_mask :=
    if divisor &&& 0x01 ≠ 0 then (xr21v141x_txrx_clk_masks.getD idx ⟨0, 0, 0⟩).rx1
    else (xr21v141x_txrx_clk_masks.getD idx ⟨0, 0, 0⟩).rx0
  [(CLOCK_DIVISOR_0, divisor &&& 0xff),
   (CLOCK_DIVISOR_1, (divisor >>> 8) &&& 0xff),
   (CLOCK_DIVISOR_2, (divisor >>> 16) &&& 0xff),
   (TX_CLOCK_MASK_0, tx_mask &&& 0xff),
   (TX_CLOCK_MASK_1, (tx_mask >>> 8) &&& 0xff),
   (RX_CLOCK_MASK_0, rx_mask &&& 0xff),
   (RX_CLOCK_MASK_1, (rx_mask >>> 8) &&& 0xff)]

/-- Issue a list of register writes one by one; ok i says whether the i-th
attempted transfer succeeds.  A failed write is still attempted (it appears in
the trace) but aborts the rest, as the early returns in xr_set_baudrate do. -/
def runWrites (ok : Nat → Bool) : Nat → List (Nat × Nat) → Bool × List (Nat × Nat)
  | _, [] => (true, [])
  | i, w :: ws =>
      if ok i then
        ((runWrites ok (i + 1) ws).1, w :: (runWrites ok (i + 1) ws).2)
      else (false, [w])

/-- xr_set_baudrate: success flag and wire trace of UART-block register
writes, given the requested speed and a success oracle for the transfers. -/
def xr_set_baudrate (c_ospeed : Nat) (ok : Nat → Bool) : Bool × List (Nat × Nat) :=
  if c_ospeed = 0 then (true, [])
  else runWrites ok 0 (xr_baud_regs c_ospeed)

/-- xr_tiocmset_port: translate TIOCM set and clear masks into GPIO_CLR and
GPIO_SET writes (pins are active low, so the directions are swapped).  r1 and
r2 are the results the two possible transfers would return; the C code lets
the second overwrite the first in ret.  Returns ret and the write trace. -/
def xr_tiocmset_port (m : Model) (set clear : Nat) (r1 r2 : Int) :
    Int × List (Nat × Nat) :=
  let gpio_clr :=
    (if set &&& TIOCM_RTS ≠ 0 then UART_MODE_RTS else 0) |||
    (if set &&& TIOCM_DTR ≠ 0 then UART_MODE_DTR else 0)
  let gpio_set :=
    (if clear &&& TIOCM_RTS ≠ 0 then UART_MODE_RTS else 0) |||
    (if clear &&& TIOCM_DTR ≠ 0 then UART_MODE_DTR else 0)
  let st1 : Int × List (Nat × Nat) :=
    if gpio_clr ≠ 0 then (r1, [(regAddr m XrHalType.REG_GPIO_CLR, gpio_clr)])
    else (0, [])
  if gpio_set ≠ 0 then (r2, st1.2 ++ [(regAddr m XrHalType.REG_GPIO_SET, gpio_set)])
  else st1

/-- Abstract wire events of a single xr_set_flow_mode call.  The uart_disable
and uart_enable sequences are kept as single events, matching the granularity
at which the datasheet bracket requirement is stated. -/
inductive FlowEvent
  | getReg (reg : Nat)
  | setReg (reg : Nat) (val : Nat)
  | uartDisable
  | uartEnable
deriving DecidableEq

/-- The XON_CHAR and XOFF_CHAR writes of the software-flow branch of
xr_set_flow_mode (issued only when hardware flow is not selected and IXON
is set). -/
def xr_flow_sw_writes (m : Model) (crtscts baudIsB0 ixon : Bool)
    (startChar stopChar : Nat) : List FlowEvent :=
  if crtscts && !baudIsB0 then []
  else if ixon then
    [FlowEvent.setReg (regAddr m XrHalType.REG_XON_CHAR) startChar,
     FlowEvent.setReg (regAddr m XrHalType.REG_XOFF_CHAR) stopChar]
  else []

/-- The flow value written to FLOW_CTRL by xr_set_flow_mode. -/
def xr_flow_val (crtscts baudIsB0 ixon : Bool) : Nat :=
  if crtscts && !baudIsB0 then UART_FLOW_MODE_HW
  else if ixon then UART_FLOW_MODE_SW
  else UART_FLOW_MODE_NONE

/-- The value written back to GPIO_MODE by xr_set_flow_mode.  gpio_mode is a
u8 local in C, so the OR of 0x300 on XR21B142X is truncated modulo 256.
The mask 0xf8 is the u8 complement of UART_MODE_GPIO_MASK. -/
def xr_flow_gpio_mode (m : Model) (crtscts baudIsB0 : Bool) (gpio_mode : Nat) : Nat :=
  let g1 := gpio_mode &&& 0xf8
  let g2 := if crtscts && !baudIsB0 then g1 ||| UART_MODE_RTS_CTS else g1
  if m = Model.XR21B142X then (g2 ||| 0x300) % 256 else g2

/-- The trailing modem-line writes of xr_set_flow_mode: xr_dtr_rts(0) when
the new baud is B0, xr_dtr_rts(1) when the old baud was B0 and the new one is
not; both via xr_tiocmset_port. -/
def xr_flow_dtr_writes (m : Model) (baudIsB0 : Bool) (oldB0 : Option Bool) :
    List FlowEvent :=
  if baudIsB0 then
    ((xr_tiocmset_port m 0 (TIOCM_DTR ||| TIOCM_RTS) 0 0).2).map
      (fun p => FlowEvent.setReg p.1 p.2)
  else if oldB0 = some true then
    ((xr_tiocmset_port m (TIOCM_DTR ||| TIOCM_RTS) 0 0 0).2).map
      (fun p => FlowEvent.setReg p.1 p.2)
  else []

/-- Event trace of one xr_set_flow_mode call.  gpioRead is the outcome of the
initial GPIO_MODE read (none models a failed xr_get_reg, after which the C
function returns at once); baudIsB0 says whether C_BAUD(tty) is B0; oldB0
whether an old_termios was passed and had CBAUD equal to B0. -/
def xr_set_flow_mode_trace (m : Model) (crtscts baudIsB0 ixon : Bool)
    (startChar stopChar : Nat) (gpioRead : Option Nat) (oldB0 : Option Bool) :
    List FlowEvent :=
  match gpioRead with
  | none => [FlowEvent.getReg (regAddr m XrHalType.REG_GPIO_MODE)]
  | some gpio_mode =>
      (FlowEvent.getReg (regAddr m XrHalType.REG_GPIO_MODE)
          :: xr_flow_sw_writes m crtscts baudIsB0 ixon startChar stopChar)
        ++ FlowEvent.uartDisable
          :: FlowEvent.setReg (regAddr m XrHalType.REG_FLOW_CTRL)
              (xr_flow_val crtscts baudIsB0 ixon)
          :: FlowEvent.uartEnable
          :: FlowEvent.setReg (regAddr m XrHalType.REG_GPIO_MODE)
              (xr_flow_gpio_mode m crtscts baudIsB0 gpio_mode)
          :: xr_flow_dtr_writes m baudIsB0 oldB0

/-- Decidable check: does a trace contain a write to FLOW_CTRL? -/
def has_flow_ctrl_write (m : Model) (tr : List FlowEvent) : Bool :=
  tr.any fun e =>
    match e with
    | FlowEvent.setReg r _ => r == regAddr m XrHalType.REG_FLOW_CTRL
    | _ => false

theorem regAddr_ne_flow_ctrl (m : Model) :
    regAddr m XrHalType.REG_XON_CHAR ≠ regAddr m XrHalType.REG_FLOW_CTRL ∧
    regAddr m XrHalType.REG_XOFF_CHAR ≠ regAddr m XrHalType.REG_FLOW_CTRL ∧
    regAddr m XrHalType.REG_GPIO_MODE ≠ regAddr m XrHalType.REG_FLOW_CTRL ∧
    regAddr m XrHalType.REG_GPIO_SET ≠ regAddr m XrHalType.REG_FLOW_CTRL ∧
    regAddr m XrHalType.REG_GPIO_CLR ≠ regAddr m XrHalType.REG_FLOW_CTRL := by
  cases m <;> decide

theorem xr_flow_sw_writes_no_flow (m : Model) (crtscts baudIsB0 ixon : Bool)
    (startChar stopChar : Nat) :
    ∀ e ∈ xr_flow_sw_writes m crtscts baudIsB0 ixon startChar stopChar, ∀ w,
      e ≠ FlowEvent.setReg (regAddr m XrHalType.REG_FLOW_CTRL) w := by
  intro e he w heq
  subst heq
  unfold xr_flow_sw_writes at he
  split at he
  · simp at he
  · split at he
    · have hxon := (regAddr_ne_flow_ctrl m).1
      have hxoff := (regAddr_ne_flow_ctrl m).2.1
      simp at he
      rcases he with ⟨h1, -⟩ | ⟨h1, -⟩
      · exact hxon h1.symm
      · exact hxoff h1.symm
    · simp at he

theorem xr_flow_dtr_writes_no_flow (m : Model) (baudIsB0 : Bool) (oldB0 : Option Bool) :
    ∀ e ∈ xr_flow_dtr_writes m baudIsB0 oldB0, ∀ w,
      e ≠ FlowEvent.setReg (regAddr m XrHalType.REG_FLOW_CTRL) w := by
  intro e he w heq
  subst heq
  unfold xr_flow_dtr_writes at he
  split at he
  · have hset : (xr_tiocmset_port m 0 (TIOCM_DTR ||| TIOCM_RTS) 0 0).2
        = [(regAddr m XrHalType.REG_GPIO_SET, UART_MODE_RTS ||| UART_MODE_DTR)] := rfl
    rw [hset] at he
    simp at he
    exact (regAddr_ne_flow_ctrl m).2.2.2.1 he.1.symm
  · split at he
    · have hclr : (xr_tiocmset_port m (TIOCM_DTR ||| TIOCM_RTS) 0 0 0).2
          = [(regAddr m XrHalType.REG_GPIO_CLR, UART_MODE_RTS ||| UART_MODE_DTR)] := rfl
      rw [hclr] at he
      simp at he
      exact (regAddr_ne_flow_ctrl m).2.2.2.2 he.1.symm
    · simp at he

theorem runWrites_ok (ok : Nat → Bool) (l : List (Nat × Nat)) (s : Nat)
    (h : ∀ i, i < l.length → ok (s + i) = true) : runWrites ok s l = (true, l) := by
  induction l generalizing s with
  | nil => rfl
  | cons w ws ih =>
      have h0 : ok s = true := by
        have := h 0 (by simp)
        simpa using this
      have hrec : runWrites ok (s + 1) ws = (true, ws) := by
        apply ih
        intro i hi
        have hs := h (i + 1) (by simpa using Nat.succ_lt_succ hi)
        have heq : s + (i + 1) = s + 1 + i := by omega
        rw [heq] at hs
        exact hs
      simp [runWrites, h0, hrec]

theorem runWrites_fail (ok : Nat → Bool) (l : List (Nat × Nat)) (s k : Nat)
    (hk : k < l.length) (hok : ∀ i, i < k → ok (s + i) = true)
    (hf : ok (s + k) = false) :
    runWrites ok s l = (false, l.take (k + 1)) := by
  induction l generalizing s k with
  | nil => simp at hk
  | cons w ws ih =>
      cases k with
      | zero =>
          have h0 : ok s = false := by simpa using hf
          simp [runWrites, h0]
      | succ k =>
          have h0 : ok s = true := by
            have := hok 0 (Nat.succ_pos k)
            simpa using this
          have hrec : runWrites ok (s + 1) ws = (false, ws.take (k + 1)) := by
            apply ih
            · simpa using Nat.lt_of_succ_lt_succ hk
            · intro i hi
              have hs := hok (i + 1) (Nat.succ_lt_succ hi)
              have heq : s + (i + 1) = s + 1 + i := by omega
              rw [heq] at hs
              exact hs
            · have heq : s + (k + 1) = s + 1 + k := by omega
              rw [heq] at hf
              exact hf
          simp [runWrites, h0, hrec]

/-- Claim C1: the claim states that on XR21V141X, channel c in 1..4 yields
wIndex = (block shl 8) or reg or ((c-1) shl 8).  In the code the reg parameter
is a u8, so the compound OR of (channel-1) shl 8 is truncated modulo 256 and
has no effect: at channel 2, block 0, reg 3 the code produces wIndex 0x003,
not the 0x103 the claim requires, and the wIndex high byte always equals the
block byte. -/
theorem xr_set_reg_channel_offset_lost :
    (xr_set_reg Model.XR21V141X 2 0 0x03 0x03).wIndex = 0x03 ∧
    ((0 : Nat) <<< 8) ||| 0x03 ||| ((2 - 1) <<< 8) = 0x103 ∧
    (xr_set_reg Model.XR21V141X 2 0 0x03 0x03).wIndex
      ≠ ((0 : Nat) <<< 8) ||| 0x03 ||| ((2 - 1) <<< 8) := by
  decide

/-- Claim C4: on XR21V141X, break_ctl writes TX_BREAK 0xff to assert and
0x00 to release (confirmed below); on other models the wValue sent with
SEND_BREAK is the uninitialized local state, not the requested duration:
with duration 250 the message carries whatever garbage (here 0, then 77)
happened to be in the variable. -/
theorem xr_break_ctl_state_uninitialized :
    xr_break_ctl Model.XR21V141X 1 0 = BreakAction.setRegUart 0x14 0xff ∧
    xr_break_ctl Model.XR21V141X 0 0 = BreakAction.setRegUart 0x14 0x00 ∧
    xr_break_ctl Model.XR21B1411 250 0
      = BreakAction.ctrlMsg USB_CDC_REQ_SEND_BREAK 0 0 ∧
    xr_break_ctl Model.XR21B1411 250 77
      = BreakAction.ctrlMsg USB_CDC_REQ_SEND_BREAK 77 0 := by
  decide

/-- Claim C6: in every xr_set_flow_mode call, either no FLOW_CTRL write occurs
at all (the early return on a failed GPIO_MODE read), or the unique FLOW_CTRL
write is immediately preceded by uart_disable and immediately followed by
uart_enable, and no FLOW_CTRL write occurs anywhere else in the trace. -/
theorem xr_set_flow_mode_flow_ctrl_bracketed (m : Model) (crtscts baudIsB0 ixon : Bool)
    (startChar stopChar : Nat) (gpioRead : Option Nat) (oldB0 : Option Bool) :
    (∀ e ∈ xr_set_flow_mode_trace m crtscts baudIsB0 ixon startChar stopChar gpioRead oldB0,
        ∀ w, e ≠ FlowEvent.setReg (regAddr m XrHalType.REG_FLOW_CTRL) w) ∨
    (∃ l v r,
      xr_set_flow_mode_trace m crtscts baudIsB0 ixon startChar stopChar gpioRead oldB0
        = l ++ FlowEvent.uartDisable
            :: FlowEvent.setReg (regAddr m XrHalType.REG_FLOW_CTRL) v
            :: FlowEvent.uartEnable :: r ∧
      (∀ e ∈ l, ∀ w, e ≠ FlowEvent.setReg (regAddr m XrHalType.REG_FLOW_CTRL) w) ∧
      (∀ e ∈ r, ∀ w, e ≠ FlowEvent.setReg (regAddr m XrHalType.REG_FLOW_CTRL) w)) := by
  cases gpioRead with
  | none =>
      left
      intro e he w
      simp [xr_set_flow_mode_trace] at he
      subst he
      simp
  | some gm =>
      right
      refine ⟨FlowEvent.getReg (regAddr m XrHalType.REG_GPIO_MODE)
          :: xr_flow_sw_writes m crtscts baudIsB0 ixon startChar stopChar,
        xr_flow_val crtscts baudIsB0 ixon,
        FlowEvent.setReg (regAddr m XrHalType.REG_GPIO_MODE)
            (xr_flow_gpio_mode m crtscts baudIsB0 gm)
          :: xr_flow_dtr_writes m baudIsB0 oldB0,
        rfl, ?_, ?_⟩
      · intro e he w
        rcases List.mem_cons.mp he with h | h
        · subst h
          simp
        · exact xr_flow_sw_writes_no_flow m crtscts baudIsB0 ixon startChar stopChar e h w
      · intro e he w
        rcases List.mem_cons.mp he with h | h
        · subst h
          have hgm := (regAddr_ne_flow_ctrl m).2.2.1
          simp only [ne_eq, FlowEvent.setReg.injEq, not_and]
          intro h1
          exact (hgm h1).elim
        · exact xr_flow_dtr_writes_no_flow m baudIsB0 oldB0 e h w

/-- Claim C6 witness: the bracket property instantiated at a concrete call
(XR21V141X, hardware flow requested, GPIO_MODE read returns 0xff). -/
theorem xr_set_flow_mode_flow_ctrl_bracketed_witness :
    (∀ e ∈ xr_set_flow_mode_trace Model.XR21V141X true false false 17 19 (some 0xff) none,
        ∀ w, e ≠ FlowEvent.setReg (regAddr Model.XR21V141X XrHalType.REG_FLOW_CTRL) w) ∨
    (∃ l v r,
      xr_set_flow_mode_trace Model.XR21V141X true false false 17 19 (some 0xff) none
        = l ++ FlowEvent.uartDisable
            :: FlowEvent.setReg (regAddr Model.XR21V141X XrHalType.REG_FLOW_CTRL) v
            :: FlowEvent.uartEnable :: r ∧
      (∀ e ∈ l, ∀ w,
        e ≠ FlowEvent.setReg (regAddr Model.XR21V141X XrHalType.REG_FLOW_CTRL) w) ∧
      (∀ e ∈ r, ∀ w,
        e ≠ FlowEvent.setReg (regAddr Model.XR21V141X XrHalType.REG_FLOW_CTRL) w)) :=
  xr_set_flow_mode_flow_ctrl_bracketed Model.XR21V141X true false false 17 19 (some 0xff) none

/-- Claim C3 (amended): a failed GPIO_MODE read at the start of
xr_set_flow_mode aborts the remainder of the call.  The trace is exactly the
attempted read; in particular no FLOW_CTRL write is issued. -/
theorem xr_set_flow_mode_gpio_read_failure_aborts (m : Model)
    (crtscts baudIsB0 ixon : Bool) (startChar stopChar : Nat) (oldB0 : Option Bool) :
    xr_set_flow_mode_trace m crtscts baudIsB0 ixon startChar stopChar none oldB0
      = [FlowEvent.getReg (regAddr m XrHalType.REG_GPIO_MODE)] ∧
    has_flow_ctrl_write m
      (xr_set_flow_mode_trace m crtscts baudIsB0 ixon startChar stopChar none oldB0)
      = false :=
  ⟨rfl, rfl⟩

/-- Claim C3 counterexample: at a concrete call (XR21V141X, hardware flow
requested, failed GPIO_MODE read) the trace is only the failed read and
contains no FLOW_CTRL write, contradicting the claim that the FLOW_CTRL write
is still issued after the failed read. -/
theorem xr_set_flow_mode_gpio_read_failure_counterexample :
    has_flow_ctrl_write Model.XR21V141X
      (xr_set_flow_mode_trace Model.XR21V141X true false false 17 19 none none) = false ∧
    xr_set_flow_mode_trace Model.XR21V141X true false false 17 19 none none
      = [FlowEvent.getReg 0x1a] := by
  decide

/-- Claim C2 counterexample: baud 48 lies in the clamped range and yields
index 0, selecting the all-zero entry 0 of the clock-mask table, so the index
is not always at least 2. -/
theorem xr_baud_idx_counterexample :
    MIN_SPEED ≤ 48 ∧ 48 ≤ MAX_SPEED ∧ xr_baud_idx 48 = 0 ∧ ¬(2 ≤ xr_baud_idx 48) ∧
    xr21v141x_txrx_clk_masks.getD (xr_baud_idx 48) ⟨0, 0, 0⟩ = ⟨0, 0, 0⟩ := by
  decide

/-- Claim C2 (amended): for every baud in the clamped range the computed
index is a valid index into the 32-entry clock-mask table (idx < 32), though
entries 0 and 1 can be selected. -/
theorem xr_baud_idx_lt_32 (b : Nat) (h1 : MIN_SPEED ≤ b) (h2 : b ≤ MAX_SPEED) :
    xr_baud_idx b < 32 := by
  have h : xr_baud_idx b ≤ 0x1f := Nat.and_le_right
  omega

/-- Claim C2 witness: the amended bound instantiated at baud 9600. -/
theorem xr_baud_idx_lt_32_witness : xr_baud_idx 9600 < 32 :=
  xr_baud_idx_lt_32 9600 (by decide) (by decide)

/-- Claim C7 counterexample: baud 46 is in the clamped range and gives
divisor 1043478, which does not fit in 19 bits. -/
theorem xr_baud_divisor_counterexample :
    MIN_SPEED ≤ 46 ∧ 46 ≤ MAX_SPEED ∧ xr_baud_divisor 46 = 1043478 ∧
    ¬(xr_baud_divisor 46 < 2 ^ 19) := by
  decide

/-- Claim C7 (amended): for every baud in the clamped range [46, 48000000]
the divisor XR_INT_OSC_HZ / baud fits in 20 bits. -/
theorem xr_baud_divisor_lt_2_pow_20 (b : Nat) (h1 : MIN_SPEED ≤ b)
    (h2 : b ≤ MAX_SPEED) : xr_baud_divisor b < 2 ^ 20 := by
  have hle : XR_INT_OSC_HZ / b ≤ XR_INT_OSC_HZ / MIN_SPEED :=
    Nat.div_le_div_left h1 (by decide)
  have hlt : XR_INT_OSC_HZ / MIN_SPEED < 2 ^ 20 := by decide
  exact lt_of_le_of_lt hle hlt

/-- Claim C7 witness: the amended bound instantiated at baud 9600. -/
theorem xr_baud_divisor_lt_2_pow_20_witness : xr_baud_divisor 9600 < 2 ^ 20 :=
  xr_baud_divisor_lt_2_pow_20 9600 (by decide) (by decide)

/-- Claim C10: 32 * XR_INT_OSC_HZ = 1536000000 is below 2 to the 32, so the
u32 index computation agrees with exact arithmetic for every baud of at
least 1. -/
theorem xr_baud_idx_u32_exact (baud : Nat) (h1 : 1 ≤ baud) (h2 : baud < 2 ^ 32) :
    32 * XR_INT_OSC_HZ < 2 ^ 32 ∧ xr_baud_idx_u32 baud = xr_baud_idx baud := by
  have hlt : 32 * XR_INT_OSC_HZ < 2 ^ 32 := by decide
  refine ⟨hlt, ?_⟩
  unfold xr_baud_idx_u32 xr_baud_idx
  rw [Nat.mod_eq_of_lt hlt]

/-- Claim C10 witness: the overflow-freedom statement instantiated at
baud 48. -/
theorem xr_baud_idx_u32_exact_witness : xr_baud_idx_u32 48 = xr_baud_idx 48 :=
  (xr_baud_idx_u32_exact 48 (by decide) (by decide)).2

/-- Claim C5: requested baud 0 returns success with no writes; a non-zero
baud is clamped and produces the seven writes of xr_baud_regs in program
order when every transfer succeeds, and exactly the first k+1 of them when
the first failure is the k-th write (the failed write is attempted, the rest
are aborted). -/
theorem xr_set_baudrate_spec (baud k : Nat) (ok : Nat → Bool) :
    xr_set_baudrate 0 ok = (true, []) ∧
    (baud ≠ 0 → (∀ i, i < 7 → ok i = true) →
      xr_set_baudrate baud ok = (true, xr_baud_regs baud)) ∧
    (baud ≠ 0 → k < 7 → (∀ i, i < k → ok i = true) → ok k = false →
      xr_set_baudrate baud ok = (false, (xr_baud_regs baud).take (k + 1))) := by
  have hlen : (xr_baud_regs baud).length = 7 := rfl
  refine ⟨by simp [xr_set_baudrate], ?_, ?_⟩
  · intro h0 hok
    unfold xr_set_baudrate
    rw [if_neg h0]
    apply runWrites_ok
    intro i hi
    rw [Nat.zero_add]
    exact hok i (by omega)
  · intro h0 hk7 hok hf
    unfold xr_set_baudrate
    rw [if_neg h0]
    apply runWrites_fail
    · omega
    · intro i hi
      rw [Nat.zero_add]
      exact hok i hi
    · rw [Nat.zero_add]
      exact hf

/-- Claim C5 witness: baud 115200 with all transfers succeeding: divisor 416
(0x1a0), index 21, tx mask 0xb6d, divisor even so rx mask rx0 = 0xb6a, and
the seven writes in order, low byte first. -/
theorem xr_set_baudrate_spec_witness :
    xr_set_baudrate 115200 (fun _ => true)
      = (true, [(0x04, 0xa0), (0x05, 0x01), (0x06, 0x00), (0x07, 0x6d),
                (0x08, 0x0b), (0x09, 0x6a), (0x0a, 0x0b)]) := by
  have h := (xr_set_baudrate_spec 115200 0 (fun _ => true)).2.1 (by decide)
    (fun i hi => rfl)
  rw [h]
  decide

/-- Claim C8: on every error return of xr_get_reg the caller's byte keeps its
previous value; it is overwritten with the transferred byte exactly when the
function returns 0. -/
theorem xr_get_reg_val_unchanged_on_error (m : Model) (channel : Nat)
    (allocOk : Bool) (transferRet : Int) (dmabufByte val : Nat) :
    ((xr_get_reg m channel allocOk transferRet dmabufByte val).1 ≠ 0 →
      (xr_get_reg m channel allocOk transferRet dmabufByte val).2 = val) ∧
    ((xr_get_reg m channel allocOk transferRet dmabufByte val).1 = 0 →
      (xr_get_reg m channel allocOk transferRet dmabufByte val).2 = dmabufByte) := by
  unfold xr_get_reg
  cases allocOk with
  | false => simp
  | true =>
      by_cases h1 : transferRet = 1
      · simp [h1]
      · by_cases h2 : (0 : Int) ≤ transferRet
        · simp [h1, h2]
        · simp [h1, h2]
          intro h3
          omega

/-- Claim C8 witness: a transport error (-5) leaves the caller's byte 3
untouched. -/
theorem xr_get_reg_val_unchanged_on_error_witness :
    (xr_get_reg Model.XR21V141X 1 true (-5) 7 3).2 = 3 :=
  (xr_get_reg_val_unchanged_on_error Model.XR21V141X 1 true (-5) 7 3).1 (by decide)

/-- Claim C9: xr_tiocmset_port depends only on the TIOCM_DTR and TIOCM_RTS
bits of the set and clear masks, and when neither mask contains DTR or RTS it
performs no writes and returns 0. -/
theorem xr_tiocmset_port_dtr_rts_only (m : Model) (set clear : Nat) (r1 r2 : Int) :
    xr_tiocmset_port m set clear r1 r2
      = xr_tiocmset_port m (set &&& (TIOCM_DTR ||| TIOCM_RTS))
          (clear &&& (TIOCM_DTR ||| TIOCM_RTS)) r1 r2 ∧
    (set &&& (TIOCM_DTR ||| TIOCM_RTS) = 0 → clear &&& (TIOCM_DTR ||| TIOCM_RTS) = 0 →
      xr_tiocmset_port m set clear r1 r2 = (0, [])) := by
  have hmask : TIOCM_DTR ||| TIOCM_RTS = 6 := rfl
  have h64 : (6 : Nat) &&& 4 = 4 := by decide
  have h62 : (6 : Nat) &&& 2 = 2 := by decide
  have h4 : ∀ x : Nat, (x &&& 6) &&& TIOCM_RTS = x &&& TIOCM_RTS := by
    intro x
    show (x &&& 6) &&& 4 = x &&& 4
    rw [Nat.and_assoc, h64]
  have h2 : ∀ x : Nat, (x &&& 6) &&& TIOCM_DTR = x &&& TIOCM_DTR := by
    intro x
    show (x &&& 6) &&& 2 = x &&& 2
    rw [Nat.and_assoc, h62]
  constructor
  · rw [hmask]
    unfold xr_tiocmset_port
    rw [h4 set, h2 set, h4 clear, h2 clear]
  · intro hs hc
    rw [hmask] at hs hc
    have hs4 : set &&& TIOCM_RTS = 0 := by
      rw [← h4 set, hs]
      rfl
    have hs2 : set &&& TIOCM_DTR = 0 := by
      rw [← h2 set, hs]
      rfl
    have hc4 : clear &&& TIOCM_RTS = 0 := by
      rw [← h4 clear, hc]
      rfl
    have hc2 : clear &&& TIOCM_DTR = 0 := by
      rw [← h2 clear, hc]
      rfl
    unfold xr_tiocmset_port
    rw [hs4, hs2, hc4, hc2]
    simp

/-- Claim C9 witness: masks containing only non-DTR, non-RTS modem bits
(TIOCM_LE and TIOCM_ST on set, TIOCM_LE and TIOCM_SR on clear) produce no
writes and return 0. -/
theorem xr_tiocmset_port_dtr_rts_only_witness :
    xr_tiocmset_port Model.XR21V141X 0x9 0x11 (-5) (-19) = (0, []) :=
  (xr_tiocmset_port_dtr_rts_only Model.XR21V141X 0x9 0x11 (-5) (-19)).2
    (by decide) (by decide)
